import Mathlib

/-!
Verification of the flowCAD equipment-network core against its specification.

The Python sources are shallowly embedded:
* floating point numbers become exact rationals `ℚ` (reals `ℝ` only where the
  source uses `math.exp`),
* in-place mutation becomes explicit state passing: a method that can both
  mutate and raise returns the (possibly partially) updated state next to an
  optional error message, so that exception paths keep the mutations the
  source had already performed,
* Python dictionaries over string keys become association lists with
  first-match lookup and insert-or-overwrite,
* Python object identity (the default `==` used by `list.__contains__`) is
  modelled by a numeric `ref` tag carried by every equipment object; distinct
  objects carry distinct tags.
-/

/-! ## Port (models/Equipement/BaseEquipment.py) -/

/-- Python's `str.strip()`: drop whitespace from both ends.  (Defined by
structural recursion on the character list so that it evaluates inside the
kernel; `String.trim` does not.) -/
def pyStrip (s : String) : String :=
  ⟨((s.data.dropWhile Char.isWhitespace).reverse.dropWhile Char.isWhitespace).reverse⟩

/-- A connection terminal owned by one equipment.  Mirrors class `Port`:
`id` and `parent_equipment_id` are stored stripped by the constructor, the
connection state is the triple `is_connected` / `connected_to_equipment` /
`connected_to_port`. -/
structure Port where
  id : String
  parent_equipment_id : String
  is_connected : Bool
  connected_to_equipment : Option String
  connected_to_port : Option String
deriving DecidableEq, Repr

/-- `Port.__init__`: both ids are stripped and the port starts free.
(The constructor's rejection of empty ids is carried as hypotheses of the
theorems instead of an `Except` wrapper.) -/
def mkPort (port_id parent_equipment_id : String) : Port :=
  { id := pyStrip port_id
    parent_equipment_id := pyStrip parent_equipment_id
    is_connected := false
    connected_to_equipment := none
    connected_to_port := none }

/-- `Port.connect(other_equipment_id, other_port_id)`.  Returns the error
message raised (if any) together with the state the object has after the
call; the source sets `is_connected` and `connected_to_equipment` before its
two late empty-after-strip checks, so those error paths return a partially
mutated port exactly as the Python object would be left. -/
def Port.connect (p : Port) (other_equipment_id other_port_id : String) :
    Option String × Port :=
  if p.is_connected then
    (some ("Le port " ++ p.id ++ " est deja connecte"), p)
  else if other_equipment_id = "" then
    (some "L ID de l equipement connecte doit etre une chaine non vide", p)
  else if other_port_id = "" then
    (some "L ID du port auquel il faut se connecter doit etre une chaine non vide", p)
  else if p.parent_equipment_id = pyStrip other_equipment_id ∧ p.id = pyStrip other_port_id then
    (some "Un port ne peut pas se connecter a lui-meme", p)
  else
    let p1 : Port := { p with is_connected := true
                              connected_to_equipment := some (pyStrip other_equipment_id) }
    if pyStrip other_equipment_id = "" then
      (some "L ID de l equipement connecte ne peut pas etre vide", p1)
    else
      let p2 : Port := { p1 with connected_to_port := some (pyStrip other_port_id) }
      if pyStrip other_port_id = "" then
        (some "L ID du port connecte ne peut pas etre vide", p2)
      else
        (none, p2)

/-- `Port.disconnect()`: clears `is_connected` and `connected_to_equipment`.
The source's last statement is the bare expression `self` (not an
assignment), so `connected_to_port` is left untouched. -/
def Port.disconnect (p : Port) : Port :=
  { p with is_connected := false, connected_to_equipment := none }

/-- `Port.validate()`: list of textual problems, never throws. -/
def Port.validate (p : Port) : List String :=
  (if p.id = "" then ["ID du port manquant"] else []) ++
  (if p.parent_equipment_id = "" then ["ID de l equipement parent manquant"] else []) ++
  (if p.is_connected then
    (if p.connected_to_equipment.getD "" = "" then
      ["Le port est marque comme connecte mais l ID de l equipement connecte est manquant"]
    else []) ++
    (if p.connected_to_port.getD "" = "" then
      ["Le port est marque comme connecte mais l ID du port connecte est manquant"]
    else [])
  else [])

/-- The free port used to exercise the connect/disconnect cycle. -/
def c3Port : Port := mkPort "P1" "E1"

/-- The port after `connect("E2", "P2")` followed by `disconnect()`. -/
def c3PortAfter : Port := ((c3Port.connect "E2" "P2").2).disconnect

/-! ## Hydraulic converter (models/hydraulic_converter.py)

The default fluid (water, density 1000 kg/m3) and g = 9.81 m/s2 are inlined,
matching the `Fluid()` defaults every call site of these claims uses. -/

/-- `HydraulicConverter.pressure_to_head(pressure_bar, elevation)`:
H = P/(rho*g) + z with P in bar converted to Pa. -/
def HydraulicConverter.pressure_to_head (pressure_bar elevation : ℚ) : ℚ :=
  pressure_bar * 100000 / (1000 * (981/100)) + elevation

/-- `HydraulicConverter.P_mCE_to_Pa(pressure_mCE)`: P = rho*g*H. -/
def HydraulicConverter.P_mCE_to_Pa (pressure_mCE : ℚ) : ℚ :=
  1000 * (981/100) * pressure_mCE

/-- `HydraulicConverter.zeta_from_nominal_conditions(flow, dp, diameter)`:
velocity `v = 4*|Q|/(3.14159*d^2)`, returns 0 when v = 0, else
`2*dp*1000/(v^2*rho)`. -/
def HydraulicConverter.zeta_from_nominal_conditions
    (flow_rate_m3s head_loss_kPa diameter : ℚ) : ℚ :=
  if (4 * |flow_rate_m3s|) / ((314159/100000) * diameter ^ 2) = 0 then 0
  else 2 * head_loss_kPa * 1000 /
    (((4 * |flow_rate_m3s|) / ((314159/100000) * diameter ^ 2)) ^ 2 * 1000)

/-- `HydraulicConverter.zeta_from_kv(kv, diameter)`: wrapper at a 100 kPa
reference drop with the flow `kv/3600` (kv is m3/h). -/
def HydraulicConverter.zeta_from_kv (kv diameter : ℚ) : ℚ :=
  HydraulicConverter.zeta_from_nominal_conditions (kv / 3600) 100 diameter

/-! ## Hydraulic primitives (models/hydraulique/nodes.py, links.py) -/

/-- Solver-facing nodes: `Junction(id, elevation, demand)` and
`Reservoir(id, elevation, head)`. -/
inductive HydraulicNode where
  | junction (id : String) (elevation demand : ℚ)
  | reservoir (id : String) (elevation head : ℚ)
deriving DecidableEq, Repr

def HydraulicNode.id : HydraulicNode → String
  | .junction i _ _ => i
  | .reservoir i _ _ => i

/-- Solver-facing links: `Pipe`, `Pump` and `Valve` from
models/hydraulique/links.py with their constructor fields. -/
inductive HydraulicLink where
  | pipe (id start_node end_node : String)
      (length diameter roughness minor_loss : ℚ) (status : String) (check_valve : Bool)
  | pump (id start_node end_node : String) (curve_points : List (ℚ × ℚ)) (speed : ℚ)
  | valve (id start_node end_node : String)
      (diameter : ℚ) (valve_type : String) (setting minor_loss : ℚ) (status : String)
deriving DecidableEq, Repr

def HydraulicLink.id : HydraulicLink → String
  | .pipe i _ _ _ _ _ _ _ _ => i
  | .pump i _ _ _ _ => i
  | .valve i _ _ _ _ _ _ _ => i

def HydraulicLink.start_node : HydraulicLink → String
  | .pipe _ s _ _ _ _ _ _ _ => s
  | .pump _ s _ _ _ => s
  | .valve _ s _ _ _ _ _ _ => s

def HydraulicLink.end_node : HydraulicLink → String
  | .pipe _ _ e _ _ _ _ _ _ => e
  | .pump _ _ e _ _ => e
  | .valve _ _ e _ _ _ _ _ => e

/-- A node or a link (`HydraulicComponent`). -/
inductive HydraulicComponent where
  | node (n : HydraulicNode)
  | link (l : HydraulicLink)
deriving DecidableEq, Repr

/-- `HydraulicLink.validate_flowcad` of the base class: empty/equal endpoint
checks.  (The `isinstance` checks of the source always hold in this typed
embedding.) -/
def HydraulicLink.validate_base (l : HydraulicLink) : List String :=
  (if l.id = "" then ["ID du composant manquant"] else []) ++
  (if l.start_node = "" then ["Le noeud de depart doit etre une chaine non vide"] else []) ++
  (if l.end_node = "" then ["Le noeud d arrivee doit etre une chaine non vide"] else []) ++
  (if l.start_node = l.end_node then
    ["Le noeud de depart et d arrivee ne peuvent pas etre identiques"] else [])

/-- The message `Pump.validate_flowcad` appends when the curve shape test
fails. -/
def pumpCurveErrorMsg : String :=
  "La courbe doit etre une liste de un seul tuple (debit, hauteur)"

/-- `validate_flowcad` of each link class: the base checks plus the
per-class parameter checks.  For `Pump` the source demands
`isinstance(curve_points, list) and len(curve_points) == 1` and that the
single entry is a 2-tuple of numbers; with typed `List (ℚ × ℚ)` curves this
is exactly `curve_points.length = 1`. -/
def HydraulicLink.validate_flowcad (l : HydraulicLink) : List String :=
  l.validate_base ++
  match l with
  | .pipe _ _ _ len dia rough minor status _ =>
      (if len ≤ 0 then ["La longueur doit etre un nombre positif"] else []) ++
      (if dia ≤ 0 then ["Le diametre doit etre un nombre positif"] else []) ++
      (if rough < 0 then ["La rugosite doit etre un nombre non negatif"] else []) ++
      (if minor < 0 then ["La perte mineure doit etre un nombre non negatif"] else []) ++
      (if status = "OPEN" ∨ status = "CLOSED" then [] else
        ["Le statut doit etre OPEN ou CLOSED"])
  | .pump _ _ _ curve_points _ =>
      (if curve_points.length = 1 then [] else [pumpCurveErrorMsg])
  | .valve _ _ _ dia vtype _ minor status =>
      (if dia ≤ 0 then ["Le diametre doit etre un nombre positif"] else []) ++
      (if vtype = "PRV" ∨ vtype = "PSV" ∨ vtype = "FCV" ∨ vtype = "TCV" ∨ vtype = "GPV"
        then [] else ["Le type de valve doit etre l un des suivants"]) ++
      (if minor < 0 then ["La perte mineure doit etre un nombre non negatif"] else []) ++
      (if status = "OPEN" ∨ status = "CLOSED" ∨ status = "ACTIVE" then [] else
        ["Le statut doit etre OPEN, CLOSED ou ACTIVE"])

/-! ## HydraulicNetwork (models/hydraulique/network.py) -/

/-- Node and link collections keyed by id (Python dicts; insertion order
lists whose keys are the component ids). -/
structure HydraulicNetwork where
  nodes : List HydraulicNode
  links : List HydraulicLink
deriving DecidableEq, Repr

/-- `HydraulicNetwork.add_node`: rejects an already-present node id. -/
def HydraulicNetwork.add_node (net : HydraulicNetwork) (n : HydraulicNode) :
    Except String HydraulicNetwork :=
  if net.nodes.any (fun m => m.id == n.id) then
    Except.error ("Noeud avec ID " ++ n.id ++ " existe deja dans le reseau")
  else
    Except.ok { net with nodes := net.nodes ++ [n] }

/-- `HydraulicNetwork.add_link`: rejects an already-present link id and
requires both endpoint ids to exist as nodes. -/
def HydraulicNetwork.add_link (net : HydraulicNetwork) (l : HydraulicLink) :
    Except String HydraulicNetwork :=
  if net.links.any (fun m => m.id == l.id) then
    Except.error ("Lien avec ID " ++ l.id ++ " existe deja dans le reseau")
  else if ¬ (net.nodes.any (fun m => m.id == l.start_node)) ∨
          ¬ (net.nodes.any (fun m => m.id == l.end_node)) then
    Except.error "Les noeuds de debut et de fin du lien doivent exister dans le reseau"
  else
    Except.ok { net with links := net.links ++ [l] }

/-- The networks reachable through the empty constructor, `add_node` and
`add_link` (only successful calls change the state). -/
inductive HydraulicNetwork.Reachable : HydraulicNetwork → Prop where
  | empty : HydraulicNetwork.Reachable ⟨[], []⟩
  | addNode {net net' : HydraulicNetwork} {n : HydraulicNode} :
      HydraulicNetwork.Reachable net → net.add_node n = Except.ok net' →
      HydraulicNetwork.Reachable net'
  | addLink {net net' : HydraulicNetwork} {l : HydraulicLink} :
      HydraulicNetwork.Reachable net → net.add_link l = Except.ok net' →
      HydraulicNetwork.Reachable net'

/-! ## Equipment graph (models/equipment/*.py)

Only the equipment kinds the claims exercise are represented; `ref` models
Python object identity (the `==` used by `list.__contains__` on objects
without `__eq__`), distinct objects carrying distinct tags. -/

/-- The per-kind engineering parameters fixed at construction. -/
inductive EquipKind where
  | pressureBC (pressure_bar elevation : ℚ)
  | pipeConn (length diameter roughness elevation : ℚ)
deriving DecidableEq, Repr

/-- A `BaseEquipment` object: identity tag, stripped id, owned ports, kind. -/
structure Equipment where
  ref : ℕ
  id : String
  ports : List Port
  kind : EquipKind
deriving DecidableEq, Repr

/-- `PressureBoundaryConditionEquipment.__init__`: one port named
`<id>_P1`.  (The f-string uses the raw constructor argument; `Port` strips
it again.) -/
def mkPressureBC (ref : ℕ) (id : String) (pressure_bar elevation : ℚ) : Equipment :=
  { ref := ref
    id := pyStrip id
    ports := [mkPort (id ++ "_P1") id]
    kind := EquipKind.pressureBC pressure_bar elevation }

/-- `PipeConnectionEquipment.__init__`: two ports `<id>_P1`, `<id>_P2`. -/
def mkPipeConn (ref : ℕ) (id : String) (length diameter roughness elevation : ℚ) :
    Equipment :=
  { ref := ref
    id := pyStrip id
    ports := [mkPort (id ++ "_P1") id, mkPort (id ++ "_P2") id]
    kind := EquipKind.pipeConn length diameter roughness elevation }

/-- First-match lookup in a string-keyed dict. -/
def dictLookup (d : List (String × String)) (k : String) : Option String :=
  (d.find? (fun kv => kv.1 == k)).map Prod.snd

/-- Dict assignment `d[k] = v`: overwrite the existing key or append. -/
def dictInsert (d : List (String × String)) (k v : String) : List (String × String) :=
  if d.any (fun kv => kv.1 == k) then
    d.map (fun kv => if kv.1 == k then (k, v) else kv)
  else d ++ [(k, v)]

/-- Dict subscription `d[k]` (raises `KeyError` when absent). -/
def keyLookup (d : List (String × String)) (k : String) : Except String String :=
  match dictLookup d k with
  | some v => Except.ok v
  | none => Except.error ("KeyError: " ++ k)

def Equipment.getPort? (e : Equipment) (pid : String) : Option Port :=
  e.ports.find? (fun p => p.id == pid)

/-- Replace the port stored under id `pid` (in-place mutation of the owned
`Port` object). -/
def Equipment.setPort (e : Equipment) (pid : String) (p' : Port) : Equipment :=
  { e with ports := e.ports.map (fun p => if p.id == pid then p' else p) }

/-- The equipment-graph container (`NetworkEquipment`). -/
structure NetworkEquipment where
  id : String
  equipments : List Equipment
  connections : List (String × String)
deriving DecidableEq, Repr

def NetworkEquipment.findEquip (net : NetworkEquipment) (r : ℕ) : Option Equipment :=
  net.equipments.find? (fun e => e.ref == r)

def NetworkEquipment.setPort (net : NetworkEquipment) (r : ℕ) (pid : String) (p' : Port) :
    NetworkEquipment :=
  { net with equipments :=
      net.equipments.map (fun e => if e.ref == r then e.setPort pid p' else e) }

/-- `NetworkEquipment.add_equipment`: `if equipment in self.equipments` is
Python identity comparison, modelled by the `ref` tag. -/
def NetworkEquipment.add_equipment (net : NetworkEquipment) (e : Equipment) :
    Except String NetworkEquipment :=
  if net.equipments.any (fun x => x.ref == e.ref) then
    Except.error ("L equipement " ++ e.id ++ " existe deja dans le reseau")
  else
    Except.ok { net with equipments := net.equipments ++ [e] }

/-- `NetworkEquipment.connectEquipments(eq1, port1, eq2, port2)`.  The two
equipment are passed by identity (`r1`, `r2`) and the two ports by their ids
(the caller passes the stored `Port` objects).  Mirrors the source order:
existence checks, free-port checks, `port1.connect`, `port2.connect`, then
the two registry writes; exception paths return the state accumulated so
far. -/
def NetworkEquipment.connectEquipments (net : NetworkEquipment)
    (r1 : ℕ) (pid1 : String) (r2 : ℕ) (pid2 : String) :
    Option String × NetworkEquipment :=
  match net.findEquip r1 with
  | none => (some "L equipement 1 n existe pas dans le reseau", net)
  | some eq1 =>
    match net.findEquip r2 with
    | none => (some "L equipement 2 n existe pas dans le reseau", net)
    | some eq2 =>
      match eq1.getPort? pid1 with
      | none => (some "Le port 1 n existe pas dans l equipement 1", net)
      | some port1 =>
        match eq2.getPort? pid2 with
        | none => (some "Le port 2 n existe pas dans l equipement 2", net)
        | some port2 =>
          if port1.is_connected then
            (some "Le port 1 est deja connecte", net)
          else if port2.is_connected then
            (some "Le port 2 est deja connecte", net)
          else
            let res1 := port1.connect eq2.id port2.id
            let net1 := net.setPort r1 pid1 res1.2
            match res1.1 with
            | some e => (some e, net1)
            | none =>
              match (net1.findEquip r2).bind (fun e => e.getPort? pid2) with
              | none => (some "Le port 2 n existe pas dans l equipement 2", net1)
              | some port2cur =>
                let res2 := port2cur.connect eq1.id port1.id
                let net2 := net1.setPort r2 pid2 res2.2
                match res2.1 with
                | some e => (some e, net2)
                | none =>
                  let connection_name := pid1 ++ "_to_" ++ pid2
                  let conns1 := dictInsert net2.connections pid1 connection_name
                  let conns2 := dictInsert conns1 pid2 connection_name
                  (none, { net2 with connections := conns2 })

/-- `connectEquipments` as an `Except` action (error message on failure,
new state on success), used to chain the end-to-end construction. -/
def NetworkEquipment.connectE (net : NetworkEquipment)
    (r1 : ℕ) (pid1 : String) (r2 : ℕ) (pid2 : String) :
    Except String NetworkEquipment :=
  match net.connectEquipments r1 pid1 r2 pid2 with
  | (some e, _) => Except.error e
  | (none, n) => Except.ok n

/-- `NetworkEquipment.validate_flowcad()`: one message per unconnected
port. -/
def NetworkEquipment.validate_flowcad (net : NetworkEquipment) : List String :=
  net.equipments.foldl (fun acc e =>
    acc ++ e.ports.foldl (fun acc2 p =>
      acc2 ++ (if p.is_connected then [] else
        ["Le port " ++ p.id ++ " de l equipement " ++ e.id ++ " n est pas connecte"])) []) []

/-- `generate_hydraulic_representation(connections)` per kind:
PressureBoundaryCondition yields one `Reservoir` at the node id the
connections registry gives its port, with
`head = pressure_to_head(pressure, elevation)`; PipeConnection yields two
junctions and one `Pipe` (roughness passed as mm and divided by 1000). -/
def Equipment.generate_hydraulic_representation (e : Equipment)
    (connections : List (String × String)) : Except String (List HydraulicComponent) :=
  match e.kind with
  | EquipKind.pressureBC pressure_bar elevation => do
    let n1 ← keyLookup connections (e.id ++ "_P1")
    Except.ok [HydraulicComponent.node (HydraulicNode.reservoir n1 elevation
      (HydraulicConverter.pressure_to_head pressure_bar elevation))]
  | EquipKind.pipeConn length diameter roughness elevation => do
    let n1 ← keyLookup connections (e.id ++ "_P1")
    let n2 ← keyLookup connections (e.id ++ "_P2")
    Except.ok [HydraulicComponent.node (HydraulicNode.junction n1 elevation 0),
      HydraulicComponent.node (HydraulicNode.junction n2 elevation 0),
      HydraulicComponent.link (HydraulicLink.pipe e.id n1 n2 length diameter
        (roughness / 1000) 0 "OPEN" false)]

/-- `NetworkEquipment.to_hydraulic_network()`: merge every equipment's
components; a node whose id is already present is skipped (first writer
wins), links always go through `add_link`. -/
def NetworkEquipment.to_hydraulic_network (net : NetworkEquipment) :
    Except String HydraulicNetwork :=
  net.equipments.foldlM (fun hn e => do
    let comps ← e.generate_hydraulic_representation net.connections
    comps.foldlM (fun (hn2 : HydraulicNetwork) c =>
      match c with
      | HydraulicComponent.node n =>
        if hn2.nodes.any (fun m => m.id == n.id) then Except.ok hn2
        else hn2.add_node n
      | HydraulicComponent.link l => hn2.add_link l) hn)
    ⟨[], []⟩

/-! ## The end-to-end series network (spec section 8 / the module test of
network_equipment.py): two pressure boundaries (3 bar and 1 bar, elevation
10) in series through two 20 m / 0.15 m / roughness-110 pipes. -/

/-- The equipment network after the four `add_equipment` and the three
`connectEquipments` calls of the end-to-end scenario. -/
def c1Net : Except String NetworkEquipment := do
  let n0 : NetworkEquipment := { id := "Network1", equipments := [], connections := [] }
  let n1 ← n0.add_equipment (mkPressureBC 0 "PressureBC1" 3 10)
  let n2 ← n1.add_equipment (mkPressureBC 1 "PressureBC2" 1 10)
  let n3 ← n2.add_equipment (mkPipeConn 2 "Pipe1" 20 (15/100) 110 0)
  let n4 ← n3.add_equipment (mkPipeConn 3 "Pipe2" 20 (15/100) 110 0)
  let n5 ← n4.connectE 0 "PressureBC1_P1" 2 "Pipe1_P1"
  let n6 ← n5.connectE 2 "Pipe1_P2" 3 "Pipe2_P1"
  n6.connectE 3 "Pipe2_P2" 1 "PressureBC2_P1"

/-- The hydraulic network `to_hydraulic_network()` produces for the
end-to-end scenario. -/
def c1Hyd : Except String HydraulicNetwork :=
  c1Net.bind NetworkEquipment.to_hydraulic_network

/-! ## Well-formedness of equipment networks

What the constructors (`Port.__init__`, `BaseEquipment.__init__`,
`add_port`, fresh object identity) guarantee for every network assembled
through the public API. -/

/-- A stored port is well formed for its owning equipment: non-empty
stripped id, and its back-reference names the owner (enforced by
`add_port`). -/
def PortWF (eid : String) (p : Port) : Prop :=
  p.id ≠ "" ∧ pyStrip p.id = p.id ∧ p.parent_equipment_id = eid

/-- An equipment is well formed: non-empty stripped id, port ids unique
(`add_port` rejects duplicates), each port well formed. -/
def EquipWF (e : Equipment) : Prop :=
  e.id ≠ "" ∧ pyStrip e.id = e.id ∧ (e.ports.map Port.id).Nodup ∧
    ∀ p ∈ e.ports, PortWF e.id p

/-- A network is well formed: pairwise-distinct equipment objects, each
well formed. -/
def NetWF (net : NetworkEquipment) : Prop :=
  (net.equipments.map Equipment.ref).Nodup ∧ ∀ e ∈ net.equipments, EquipWF e

instance (eid : String) (p : Port) : Decidable (PortWF eid p) := by
  unfold PortWF; infer_instance

instance (e : Equipment) : Decidable (EquipWF e) := by
  unfold EquipWF; infer_instance

instance (net : NetworkEquipment) : Decidable (NetWF net) := by
  unfold NetWF; infer_instance

/-- The networks reachable from an empty container through successful
`add_equipment` calls. -/
inductive NetworkEquipment.ReachableAdd : NetworkEquipment → Prop where
  | base (id : String) : NetworkEquipment.ReachableAdd ⟨id, [], []⟩
  | add {net net' : NetworkEquipment} {e : Equipment} :
      NetworkEquipment.ReachableAdd net → net.add_equipment e = Except.ok net' →
      NetworkEquipment.ReachableAdd net'

/-- Two distinct equipment objects (refs 0 and 1) that share the id `E1`,
added in sequence. -/
def c6NetTwice : Except String NetworkEquipment :=
  ((NetworkEquipment.mk "N" [] []).add_equipment (mkPressureBC 0 "E1" 1 0)).bind
    (fun n => n.add_equipment (mkPressureBC 1 "E1" 2 0))

/-- The equipment ids held after the two `add_equipment` calls. -/
def c6Ids : Except String (List String) :=
  c6NetTwice.map (fun n => n.equipments.map Equipment.id)

/-- A two-equipment network used to instantiate the connection theorems. -/
def c2Net : NetworkEquipment :=
  { id := "N"
    equipments := [mkPressureBC 0 "A" 1 0, mkPressureBC 1 "B" 1 0]
    connections := [] }

/-- A concrete reachable hydraulic network (two junctions, one pipe). -/
def c5Wit : HydraulicNetwork :=
  { nodes := [HydraulicNode.junction "J1" 0 0, HydraulicNode.junction "J2" 0 0]
    links := [HydraulicLink.pipe "P1" "J1" "J2" 100 (3/10) 100 0 "OPEN" false] }

/-! ## Solved network and pump result harvesting
(models/equipment/active_equipment.py, PumpEquipment.get_simulation_results)

A solved network is the hydraulic network after the solver wrote per-node
`pressure`/`head` and per-link `flowrate`/... back onto its components; only
those result attributes matter here. -/

structure SolvedNode where
  id : String
  elevation : ℚ
  head : ℚ
  pressure : ℚ
deriving DecidableEq, Repr

structure SolvedLink where
  id : String
  flowrate : ℚ
  headloss : ℚ
  velocity : ℚ
  frictionfactor : ℚ
deriving DecidableEq, Repr

structure SolvedNetwork where
  nodes : List SolvedNode
  links : List SolvedLink
deriving DecidableEq, Repr

/-- The mutable result state of a `PumpEquipment`: its own nullable result
fields plus the `pressure`/`head` attributes the harvest writes onto its two
ports. -/
structure PumpEquipmentState where
  id : String
  pump_curve : List (ℚ × ℚ)
  elevation : ℚ
  flowrate : Option ℚ
  head_gain : Option ℚ
  head_1 : Option ℚ
  pressure_1 : Option ℚ
  head_2 : Option ℚ
  pressure_2 : Option ℚ
  port1_pressure : Option ℚ
  port1_head : Option ℚ
  port2_pressure : Option ℚ
  port2_head : Option ℚ
deriving DecidableEq, Repr

/-- `PumpEquipment.get_simulation_results(network, connections)`.  When the
pump's link id is missing, `flowrate` is reset (the `head_gain` reset next
to it is commented out in the source).  When the inlet node id is missing,
the source resets the port attributes and `head_1/pressure_1/head_2/
pressure_2` but its final statement is the bare expression `self.head_gain`,
not an assignment, so `head_gain` keeps its previous value.  When the inlet
node is present the outlet node is subscripted directly (`KeyError` if
absent). -/
def PumpEquipmentState.get_simulation_results (s : PumpEquipmentState)
    (network : SolvedNetwork) (connections : List (String × String)) :
    Except String PumpEquipmentState := do
  let s1 :=
    match network.links.find? (fun l => l.id == s.id) with
    | some link => { s with flowrate := some link.flowrate }
    | none => { s with flowrate := none }
  let idEquiv1 ← keyLookup connections (s.id ++ "_P1")
  let idEquiv2 ← keyLookup connections (s.id ++ "_P2")
  match network.nodes.find? (fun n => n.id == idEquiv1) with
  | some node1 =>
    match network.nodes.find? (fun n => n.id == idEquiv2) with
    | some node2 =>
      Except.ok { s1 with
        port1_pressure := some (HydraulicConverter.P_mCE_to_Pa node1.pressure)
        port2_pressure := some (HydraulicConverter.P_mCE_to_Pa node2.pressure)
        port1_head := some (HydraulicConverter.P_mCE_to_Pa node1.head)
        port2_head := some (HydraulicConverter.P_mCE_to_Pa node2.head)
        pressure_1 := some (HydraulicConverter.P_mCE_to_Pa node1.pressure)
        head_1 := some (HydraulicConverter.P_mCE_to_Pa node1.head)
        pressure_2 := some (HydraulicConverter.P_mCE_to_Pa node2.pressure)
        head_2 := some (HydraulicConverter.P_mCE_to_Pa node2.head)
        head_gain := some (HydraulicConverter.P_mCE_to_Pa node2.head -
          HydraulicConverter.P_mCE_to_Pa node1.head) }
    | none => Except.error ("KeyError: " ++ idEquiv2)
  | none =>
    Except.ok { s1 with
      port1_pressure := none
      port2_pressure := none
      port1_head := none
      port2_head := none
      head_1 := none
      pressure_1 := none
      head_2 := none
      pressure_2 := none }

/-- A pump whose result fields all hold stale values from an earlier run. -/
def c4StalePump : PumpEquipmentState :=
  { id := "PU1", pump_curve := [(40, 20)], elevation := 5
    flowrate := some 2, head_gain := some 5
    head_1 := some 1, pressure_1 := some 1, head_2 := some 1, pressure_2 := some 1
    port1_pressure := some 1, port1_head := some 1
    port2_pressure := some 1, port2_head := some 1 }

/-- The port-to-node registry for the stale pump. -/
def c4Connections : List (String × String) := [("PU1_P1", "N1"), ("PU1_P2", "N2")]

/-- Harvesting from a solved network that contains none of the pump's
node/link ids. -/
def c4Result : Except String PumpEquipmentState :=
  c4StalePump.get_simulation_results ⟨[], []⟩ c4Connections

/-! ## Valve factory (controllers/equipment_factory.py, ValveEquipment arm)

The control flow (validation, clamping, status thresholds) is driven by the
rational `opening_value`; the effective flow coefficient uses `math.exp` and
therefore lives in `ℝ`. -/

/-- Real-valued `zeta_from_nominal_conditions` (the factory feeds it real
kv values). -/
noncomputable def zetaFromNominalR (flow_rate_m3s head_loss_kPa diameter : ℝ) : ℝ :=
  if (4 * |flow_rate_m3s|) / ((314159/100000) * diameter ^ 2) = 0 then 0
  else 2 * head_loss_kPa * 1000 /
    (((4 * |flow_rate_m3s|) / ((314159/100000) * diameter ^ 2)) ^ 2 * 1000)

/-- Real-valued `zeta_from_kv`. -/
noncomputable def zetaFromKvR (kv diameter : ℝ) : ℝ :=
  zetaFromNominalR (kv / 3600) 100 diameter

/-- What the `ValveEquipment` arm of `EquipmentFactory._create_instance`
hands to the `ValveEquipment` constructor: the computed status, effective
flow coefficient, fully-open zeta and active setting. -/
structure CreatedValve where
  status : String
  kv_eff : ℝ
  zeta : ℝ
  setting : ℝ

/-- The `ValveEquipment` arm of `EquipmentFactory._create_instance`:
`linear` and `equal_percentage` raise on an opening outside [0,100] and then
clamp; `binary` converts the opening and compares it against 50 with no
range check and no clamp; an unknown control type raises. -/
noncomputable def factoryCreateValve (valve_control_type : String)
    (opening_value kv_s diameter : ℚ) : Except String CreatedValve :=
  let zeta := zetaFromKvR (kv_s : ℝ) (diameter : ℝ)
  if valve_control_type = "linear" then
    if opening_value < 0 ∨ opening_value > 100 then
      Except.error "La valeur d ouverture doit etre entre 0 et 100"
    else
      let o := max 0 (min 100 opening_value)
      let status := if o = 0 then "CLOSED" else if o = 100 then "OPEN" else "ACTIVE"
      let kv_eff : ℝ := (kv_s : ℝ) * (o : ℝ) / 100
      Except.ok ⟨status, kv_eff, zeta, zetaFromKvR kv_eff (diameter : ℝ)⟩
  else if valve_control_type = "equal_percentage" then
    if opening_value < 0 ∨ opening_value > 100 then
      Except.error "La valeur d ouverture doit etre entre 0 et 100"
    else
      let o := max 0 (min 100 opening_value)
      let status := if o = 0 then "CLOSED" else if o = 100 then "OPEN" else "ACTIVE"
      let relative_opening := o / 100
      let relative_opening_switch : ℚ := 4/10
      let relative_kv_switch : ℝ := Real.exp (3 * ((4:ℝ)/10 - 1))
      let kv_eff : ℝ :=
        if relative_opening < relative_opening_switch then
          (kv_s : ℝ) * ((relative_opening : ℝ) / ((4:ℝ)/10)) * relative_kv_switch
        else
          Real.exp (3 * ((relative_opening : ℝ) - 1)) * (kv_s : ℝ)
      Except.ok ⟨status, kv_eff, zeta, zetaFromKvR kv_eff (diameter : ℝ)⟩
  else if valve_control_type = "binary" then
    let kv_eff : ℝ := (kv_s : ℝ)
    let zeta2 := zetaFromKvR kv_eff (diameter : ℝ)
    let status := if opening_value < 50 then "CLOSED" else "OPEN"
    Except.ok ⟨status, kv_eff, zeta2, zetaFromKvR kv_eff (diameter : ℝ)⟩
  else
    Except.error ("Type de controle de vanne inconnu: " ++ valve_control_type)

/-- The equal-percentage law exactly as the specification words it: below
the switch fraction 0.4 the relation is linear toward the exponential value
at the switch point, `Kv_rated * (x/0.4) * e^(3*(0.4-1))`; at or above it,
`Kv_eff = e^(3*(x-1)) * Kv_rated` with fixed exponent n = 3.  (Stated from
the spec, to be compared with `factoryCreateValve`.) -/
noncomputable def specEqualPercentageKv (kv_rated x : ℝ) : ℝ :=
  if x < 0.4 then kv_rated * (x / 0.4) * Real.exp (3 * (0.4 - 1))
  else Real.exp (3 * (x - 1)) * kv_rated

/-! ## Theorems -/

/-- C1 (counterexample): in the end-to-end two-boundary / two-pipe series
network, `to_hydraulic_network()` produces 3 nodes, not the 4 the claim
states (the three connection names are the only node ids, and duplicate
node inserts are skipped). -/
theorem c1_counterexample :
    c1Hyd.map (fun h => h.nodes.length) = Except.ok 3 ∧
    c1Hyd.map (fun h => h.nodes.length) ≠ Except.ok 4 := by
  have h3 : c1Hyd.map (fun h => h.nodes.length) = Except.ok 3 := rfl
  refine ⟨h3, ?_⟩
  rw [h3]
  intro h
  exact absurd (Except.ok.inj h) (by norm_num)

/-- C1 (amended): the end-to-end network yields exactly 3 nodes and 2 links,
all node ids and link ids distinct, and `validate_flowcad()` on the
equipment network reports no unconnected ports. -/
theorem c1_amended :
    c1Net.map NetworkEquipment.validate_flowcad = Except.ok [] ∧
    c1Hyd.map (fun h => h.nodes.length) = Except.ok 3 ∧
    c1Hyd.map (fun h => h.links.length) = Except.ok 2 ∧
    c1Hyd.map (fun h => decide (h.nodes.map HydraulicNode.id).Nodup) = Except.ok true ∧
    c1Hyd.map (fun h => decide (h.links.map HydraulicLink.id).Nodup) = Except.ok true := by
  refine ⟨rfl, rfl, rfl, rfl, rfl⟩

/-- C3 (code evaluated at the failing input): `connect("E2","P2")` on the
free port succeeds; after `disconnect()` the connected flag and the peer
equipment id are cleared, `validate()` is empty and `disconnect` is
idempotent, but the peer port id is still recorded as `"P2"` because the
source's reset of `connected_to_port` is the bare expression `self`. -/
theorem c3_disconnect_leaves_peer_port :
    (c3Port.connect "E2" "P2").1 = none ∧
    c3PortAfter.is_connected = false ∧
    c3PortAfter.connected_to_equipment = none ∧
    c3PortAfter.connected_to_port = some "P2" ∧
    c3PortAfter.validate = [] ∧
    c3PortAfter.disconnect = c3PortAfter := by
  refine ⟨rfl, rfl, rfl, rfl, rfl, rfl⟩

/-- C4 (code evaluated at the failing input): harvesting a solved network
that contains none of the pump's ids resets every result field except
`head_gain`, which keeps its stale value 5 (the source's reset is the bare
expression `self.head_gain`). -/
theorem c4_pump_head_gain_left_stale :
    c4Result = Except.ok { c4StalePump with
      flowrate := none, head_1 := none, pressure_1 := none,
      head_2 := none, pressure_2 := none,
      port1_pressure := none, port1_head := none,
      port2_pressure := none, port2_head := none } ∧
    c4Result.map PumpEquipmentState.head_gain = Except.ok (some 5) := by
  refine ⟨rfl, rfl⟩

/-- C6 (counterexample): two distinct equipment objects with the same id
`E1` are both accepted by `add_equipment` (which compares object identity,
not ids), so equipment ids are not unique across the network. -/
theorem c6_duplicate_id_not_rejected :
    c6Ids = Except.ok ["E1", "E1"] ∧ ¬ (["E1", "E1"] : List String).Nodup := by
  refine ⟨rfl, by decide⟩

/-- C7 (counterexample): under the `binary` control law an opening of 150
(outside [0,100]) is not rejected: the factory succeeds and returns an OPEN
valve. -/
theorem c7_binary_accepts_out_of_range :
    (factoryCreateValve "binary" 150 1 (1/10)).map CreatedValve.status =
      Except.ok "OPEN" := by
  rfl

/-- C9 (counterexample): `zeta_from_kv` is not monotonically decreasing on
the whole input domain: at Kv = 0 the velocity guard returns 0, which is
smaller, not larger, than the value at Kv = 1 (diameter 1). -/
theorem c9_zero_kv_breaks_monotonicity :
    HydraulicConverter.zeta_from_kv 0 1 = 0 ∧
    HydraulicConverter.zeta_from_kv 0 1 < HydraulicConverter.zeta_from_kv 1 1 := by
  unfold HydraulicConverter.zeta_from_kv HydraulicConverter.zeta_from_nominal_conditions
  norm_num


/-- The pump-curve message never arises from the base link checks. -/
theorem pumpCurveErrorMsg_not_mem_base (l : HydraulicLink) :
    pumpCurveErrorMsg ∉ l.validate_base := by
  unfold HydraulicLink.validate_base
  split_ifs <;> decide

/-- C10: `Pump.validate_flowcad` flags the curve exactly when it does not
consist of a single (flow, head) point; construction itself accepts any
list. -/
theorem c10_pump_curve_validated_iff_singleton (id s e : String)
    (curve : List (ℚ × ℚ)) (speed : ℚ) :
    pumpCurveErrorMsg ∈ (HydraulicLink.pump id s e curve speed).validate_flowcad ↔
      curve.length ≠ 1 := by
  have hred : (HydraulicLink.pump id s e curve speed).validate_flowcad =
      (HydraulicLink.pump id s e curve speed).validate_base ++
        (if curve.length = 1 then [] else [pumpCurveErrorMsg]) := rfl
  rw [hred]
  constructor
  · intro h
    rcases List.mem_append.1 h with h | h
    · exact absurd h (pumpCurveErrorMsg_not_mem_base _)
    · by_cases hl : curve.length = 1
      · rw [if_pos hl] at h
        cases h
      · exact hl
  · intro hl
    refine List.mem_append.2 (Or.inr ?_)
    rw [if_neg hl]
    exact List.mem_singleton.2 rfl

/-- `add_equipment` rejects any equipment whose identity tag is already
present. -/
theorem add_equipment_ref_mem_error (net : NetworkEquipment) (e : Equipment)
    (h : ∃ x ∈ net.equipments, x.ref = e.ref) :
    ∃ msg, net.add_equipment e = Except.error msg := by
  unfold NetworkEquipment.add_equipment
  have hc : net.equipments.any (fun x => x.ref == e.ref) = true := by
    rcases h with ⟨x, hx, hr⟩
    exact List.any_eq_true.2 ⟨x, hx, by simpa using hr⟩
  rw [if_pos hc]
  exact ⟨_, rfl⟩

/-- A successful `add_equipment` appends a fresh identity. -/
theorem add_equipment_ok_cases {net net' : NetworkEquipment} {e : Equipment}
    (h : net.add_equipment e = Except.ok net') :
    e.ref ∉ net.equipments.map Equipment.ref ∧
      net' = { net with equipments := net.equipments ++ [e] } := by
  unfold NetworkEquipment.add_equipment at h
  by_cases hc : net.equipments.any (fun x => x.ref == e.ref) = true
  · rw [if_pos hc] at h
    cases h
  · rw [if_neg hc] at h
    refine ⟨?_, (Except.ok.inj h).symm⟩
    intro hmem
    rcases List.mem_map.1 hmem with ⟨x, hx, hr⟩
    exact hc (List.any_eq_true.2 ⟨x, hx, by simpa using hr⟩)

/-- C6 (amended): `add_equipment` rejects re-adding the same equipment
object (object identity), and every network reachable through
`add_equipment` holds pairwise-distinct objects; ids take no part in the
check (see the counterexample: two distinct objects sharing one id). -/
theorem c6_add_equipment_identity (net : NetworkEquipment)
    (h : net.ReachableAdd) :
    (net.equipments.map Equipment.ref).Nodup ∧
    ∀ e : Equipment, (∃ x ∈ net.equipments, x.ref = e.ref) →
      ∃ msg, net.add_equipment e = Except.error msg := by
  refine ⟨?_, fun e he => add_equipment_ref_mem_error net e he⟩
  induction h with
  | base id => simp
  | add hr hok ih =>
    rcases add_equipment_ok_cases hok with ⟨hfresh, rfl⟩
    simp only [List.map_append, List.map_cons, List.map_nil]
    refine (List.nodup_append).2 ⟨ih, List.nodup_singleton _, ?_⟩
    intro a ha hb
    rcases List.mem_singleton.1 hb
    exact hfresh ha

/-- A successful `add_node` had a fresh node id and appends the node. -/
theorem add_node_ok_cases {net net' : HydraulicNetwork} {n : HydraulicNode}
    (h : net.add_node n = Except.ok net') :
    (¬ ∃ m ∈ net.nodes, m.id = n.id) ∧
      net' = { net with nodes := net.nodes ++ [n] } := by
  unfold HydraulicNetwork.add_node at h
  by_cases hc : net.nodes.any (fun m => m.id == n.id) = true
  · rw [if_pos hc] at h
    cases h
  · rw [if_neg hc] at h
    refine ⟨?_, (Except.ok.inj h).symm⟩
    intro hmem
    rcases hmem with ⟨m, hm, hid⟩
    exact hc (List.any_eq_true.2 ⟨m, hm, by simpa using hid⟩)

/-- A successful `add_link` had a fresh link id, both endpoints present,
and appends the link. -/
theorem add_link_ok_cases {net net' : HydraulicNetwork} {l : HydraulicLink}
    (h : net.add_link l = Except.ok net') :
    (¬ ∃ m ∈ net.links, m.id = l.id) ∧
    (∃ m ∈ net.nodes, m.id = l.start_node) ∧
    (∃ m ∈ net.nodes, m.id = l.end_node) ∧
      net' = { net with links := net.links ++ [l] } := by
  unfold HydraulicNetwork.add_link at h
  by_cases hc1 : net.links.any (fun m => m.id == l.id) = true
  · rw [if_pos hc1] at h
    cases h
  · rw [if_neg hc1] at h
    by_cases hc2 : (¬ (net.nodes.any (fun m => m.id == l.start_node)) = true) ∨
        (¬ (net.nodes.any (fun m => m.id == l.end_node)) = true)
    · rw [if_pos hc2] at h
      cases h
    · rw [if_neg hc2] at h
      push_neg at hc2
      refine ⟨?_, ?_, ?_, (Except.ok.inj h).symm⟩
      · intro hmem
        rcases hmem with ⟨m, hm, hid⟩
        exact hc1 (List.any_eq_true.2 ⟨m, hm, by simpa using hid⟩)
      · rcases List.any_eq_true.1 hc2.1 with ⟨m, hm, hid⟩
        exact ⟨m, hm, by simpa using hid⟩
      · rcases List.any_eq_true.1 hc2.2 with ⟨m, hm, hid⟩
        exact ⟨m, hm, by simpa using hid⟩

/-- `add_node` rejects a duplicate node id. -/
theorem add_node_dup_error (net : HydraulicNetwork) (n : HydraulicNode)
    (h : ∃ m ∈ net.nodes, m.id = n.id) :
    ∃ msg, net.add_node n = Except.error msg := by
  unfold HydraulicNetwork.add_node
  rcases h with ⟨m, hm, hid⟩
  rw [if_pos (List.any_eq_true.2 ⟨m, hm, by simpa using hid⟩)]
  exact ⟨_, rfl⟩

/-- `add_link` rejects a duplicate link id or a missing endpoint. -/
theorem add_link_bad_error (net : HydraulicNetwork) (l : HydraulicLink)
    (h : (∃ m ∈ net.links, m.id = l.id) ∨
      (¬ ∃ m ∈ net.nodes, m.id = l.start_node) ∨
      (¬ ∃ m ∈ net.nodes, m.id = l.end_node)) :
    ∃ msg, net.add_link l = Except.error msg := by
  unfold HydraulicNetwork.add_link
  by_cases hdup : net.links.any (fun m => m.id == l.id) = true
  · rw [if_pos hdup]
    exact ⟨_, rfl⟩
  · rw [if_neg hdup]
    have hmiss : (¬ (net.nodes.any (fun m => m.id == l.start_node)) = true) ∨
        (¬ (net.nodes.any (fun m => m.id == l.end_node)) = true) := by
      rcases h with h | h | h
      · exact absurd (List.any_eq_true.2 (by
          rcases h with ⟨m, hm, hid⟩
          exact ⟨m, hm, by simpa using hid⟩)) hdup
      · refine Or.inl (fun hc => h ?_)
        rcases List.any_eq_true.1 hc with ⟨m, hm, hid⟩
        exact ⟨m, hm, by simpa using hid⟩
      · refine Or.inr (fun hc => h ?_)
        rcases List.any_eq_true.1 hc with ⟨m, hm, hid⟩
        exact ⟨m, hm, by simpa using hid⟩
    rw [if_pos hmiss]
    exact ⟨_, rfl⟩

/-- C5: in every network reachable through `add_node`/`add_link`, node ids
and link ids are unique, every stored link's endpoints exist as nodes, and
duplicate-id or missing-endpoint insertions are rejected. -/
theorem c5_hydraulic_network_invariants (net : HydraulicNetwork)
    (h : net.Reachable) :
    ((net.nodes.map HydraulicNode.id).Nodup ∧
     (net.links.map HydraulicLink.id).Nodup ∧
     ∀ l ∈ net.links, (∃ m ∈ net.nodes, m.id = l.start_node) ∧
       (∃ m ∈ net.nodes, m.id = l.end_node)) ∧
    (∀ n, (∃ m ∈ net.nodes, m.id = n.id) →
      ∃ msg, net.add_node n = Except.error msg) ∧
    (∀ l, ((∃ m ∈ net.links, m.id = l.id) ∨
        (¬ ∃ m ∈ net.nodes, m.id = l.start_node) ∨
        (¬ ∃ m ∈ net.nodes, m.id = l.end_node)) →
      ∃ msg, net.add_link l = Except.error msg) := by
  refine ⟨?_, fun n hn => add_node_dup_error net n hn,
    fun l hl => add_link_bad_error net l hl⟩
  induction h with
  | empty => simp
  | addNode hr hok ih =>
    rcases add_node_ok_cases hok with ⟨hfresh, rfl⟩
    refine ⟨?_, ih.2.1, ?_⟩
    · simp only [List.map_append, List.map_cons, List.map_nil]
      refine (List.nodup_append).2 ⟨ih.1, List.nodup_singleton _, ?_⟩
      intro a ha hb
      rcases List.mem_map.1 ha with ⟨m, hm, hid⟩
      rcases List.mem_singleton.1 hb
      exact hfresh ⟨m, hm, hid⟩
    · intro l hl
      rcases ih.2.2 l hl with ⟨h1, h2⟩
      constructor
      · rcases h1 with ⟨m, hm, hid⟩
        exact ⟨m, List.mem_append.2 (Or.inl hm), hid⟩
      · rcases h2 with ⟨m, hm, hid⟩
        exact ⟨m, List.mem_append.2 (Or.inl hm), hid⟩
  | addLink hr hok ih =>
    rcases add_link_ok_cases hok with ⟨hfresh, hs, he, rfl⟩
    refine ⟨ih.1, ?_, ?_⟩
    · simp only [List.map_append, List.map_cons, List.map_nil]
      refine (List.nodup_append).2 ⟨ih.2.1, List.nodup_singleton _, ?_⟩
      intro a ha hb
      rcases List.mem_map.1 ha with ⟨m, hm, hid⟩
      rcases List.mem_singleton.1 hb
      exact hfresh ⟨m, hm, hid⟩
    · intro l' hl'
      rcases List.mem_append.1 hl' with hl' | hl'
      · exact ih.2.2 l' hl'
      · rcases List.mem_singleton.1 hl'
        exact ⟨hs, he⟩

/-- C5 (witness): the invariants instantiated on a concrete reachable
network (two junctions joined by one pipe). -/
theorem c5_hydraulic_network_invariants_witness :
    (c5Wit.nodes.map HydraulicNode.id).Nodup := by
  have h0 : HydraulicNetwork.Reachable ⟨[], []⟩ := HydraulicNetwork.Reachable.empty
  have h1 : HydraulicNetwork.Reachable ⟨[HydraulicNode.junction "J1" 0 0], []⟩ :=
    @HydraulicNetwork.Reachable.addNode ⟨[], []⟩ ⟨[HydraulicNode.junction "J1" 0 0], []⟩
      (HydraulicNode.junction "J1" 0 0) h0 rfl
  have h2 : HydraulicNetwork.Reachable
      ⟨[HydraulicNode.junction "J1" 0 0, HydraulicNode.junction "J2" 0 0], []⟩ :=
    @HydraulicNetwork.Reachable.addNode ⟨[HydraulicNode.junction "J1" 0 0], []⟩
      ⟨[HydraulicNode.junction "J1" 0 0, HydraulicNode.junction "J2" 0 0], []⟩
      (HydraulicNode.junction "J2" 0 0) h1 rfl
  have h3 : HydraulicNetwork.Reachable c5Wit :=
    @HydraulicNetwork.Reachable.addLink
      ⟨[HydraulicNode.junction "J1" 0 0, HydraulicNode.junction "J2" 0 0], []⟩ c5Wit
      (HydraulicLink.pipe "P1" "J1" "J2" 100 (3/10) 100 0 "OPEN" false) h2 rfl
  exact (c5_hydraulic_network_invariants c5Wit h3).1.1

/-- C6 (witness): the identity invariants instantiated on the concrete
two-equipment network. -/
theorem c6_add_equipment_identity_witness :
    (c2Net.equipments.map Equipment.ref).Nodup := by
  have h0 : NetworkEquipment.ReachableAdd ⟨"N", [], []⟩ :=
    NetworkEquipment.ReachableAdd.base "N"
  have h1 : NetworkEquipment.ReachableAdd ⟨"N", [mkPressureBC 0 "A" 1 0], []⟩ :=
    @NetworkEquipment.ReachableAdd.add ⟨"N", [], []⟩ ⟨"N", [mkPressureBC 0 "A" 1 0], []⟩
      (mkPressureBC 0 "A" 1 0) h0 rfl
  have h2 : NetworkEquipment.ReachableAdd c2Net :=
    @NetworkEquipment.ReachableAdd.add ⟨"N", [mkPressureBC 0 "A" 1 0], []⟩ c2Net
      (mkPressureBC 1 "B" 1 0) h1 rfl
  exact (c6_add_equipment_identity c2Net h2).1

/-- C9 (amended): for a fixed positive diameter, `zeta_from_kv` is strictly
decreasing on strictly positive Kv values. -/
theorem c9_zeta_from_kv_strict_anti (d kv1 kv2 : ℚ) (hd : 0 < d) (h1 : 0 < kv1)
    (h12 : kv1 < kv2) :
    HydraulicConverter.zeta_from_kv kv2 d < HydraulicConverter.zeta_from_kv kv1 d := by
  have h2 : 0 < kv2 := h1.trans h12
  unfold HydraulicConverter.zeta_from_kv HydraulicConverter.zeta_from_nominal_conditions
  have e1 : |kv1 / 3600| = kv1 / 3600 := abs_of_pos (by positivity)
  have e2 : |kv2 / 3600| = kv2 / 3600 := abs_of_pos (by positivity)
  rw [e1, e2]
  have hv1 : 0 < 4 * (kv1 / 3600) / ((314159/100000) * d ^ 2) := by positivity
  have hv2 : 0 < 4 * (kv2 / 3600) / ((314159/100000) * d ^ 2) := by positivity
  rw [if_neg (ne_of_gt hv2), if_neg (ne_of_gt hv1)]
  refine div_lt_div_of_pos_left (by norm_num) (by positivity) ?_
  have hvlt : 4 * (kv1 / 3600) / ((314159/100000) * d ^ 2) <
      4 * (kv2 / 3600) / ((314159/100000) * d ^ 2) :=
    (div_lt_div_iff_of_pos_right (by positivity)).2 (by linarith)
  have hsq : (4 * (kv1 / 3600) / ((314159/100000) * d ^ 2)) ^ 2 <
      (4 * (kv2 / 3600) / ((314159/100000) * d ^ 2)) ^ 2 :=
    pow_lt_pow_left₀ hvlt (le_of_lt hv1) (by norm_num)
  linarith

/-- C9 (amended, witness): instantiated at d = 1, Kv1 = 1, Kv2 = 2. -/
theorem c9_zeta_from_kv_strict_anti_witness :
    (0:ℚ) < 1 ∧ (1:ℚ) < 2 ∧
    HydraulicConverter.zeta_from_kv 2 1 < HydraulicConverter.zeta_from_kv 1 1 :=
  ⟨by norm_num, by norm_num,
    c9_zeta_from_kv_strict_anti 1 1 2 (by norm_num) (by norm_num) (by norm_num)⟩

/-- The `linear` arm of the factory, with the string dispatch reduced. -/
theorem factoryCreateValve_linear (opening kv_s diameter : ℚ) :
    factoryCreateValve "linear" opening kv_s diameter =
      (if opening < 0 ∨ opening > 100 then
        Except.error "La valeur d ouverture doit etre entre 0 et 100"
      else
        Except.ok ⟨(if max 0 (min 100 opening) = 0 then "CLOSED"
            else if max 0 (min 100 opening) = 100 then "OPEN" else "ACTIVE"),
          (kv_s : ℝ) * ((max 0 (min 100 opening) : ℚ) : ℝ) / 100,
          zetaFromKvR (kv_s : ℝ) (diameter : ℝ),
          zetaFromKvR ((kv_s : ℝ) * ((max 0 (min 100 opening) : ℚ) : ℝ) / 100)
            (diameter : ℝ)⟩) := rfl

/-- The `equal_percentage` arm of the factory, with the string dispatch
reduced. -/
theorem factoryCreateValve_equal_percentage (opening kv_s diameter : ℚ) :
    factoryCreateValve "equal_percentage" opening kv_s diameter =
      (if opening < 0 ∨ opening > 100 then
        Except.error "La valeur d ouverture doit etre entre 0 et 100"
      else
        Except.ok ⟨(if max 0 (min 100 opening) = 0 then "CLOSED"
            else if max 0 (min 100 opening) = 100 then "OPEN" else "ACTIVE"),
          (if max 0 (min 100 opening) / 100 < 4/10 then
            (kv_s : ℝ) * (((max 0 (min 100 opening) / 100 : ℚ) : ℝ) / ((4:ℝ)/10)) *
              Real.exp (3 * ((4:ℝ)/10 - 1))
          else
            Real.exp (3 * (((max 0 (min 100 opening) / 100 : ℚ) : ℝ) - 1)) * (kv_s : ℝ)),
          zetaFromKvR (kv_s : ℝ) (diameter : ℝ),
          zetaFromKvR
            (if max 0 (min 100 opening) / 100 < 4/10 then
              (kv_s : ℝ) * (((max 0 (min 100 opening) / 100 : ℚ) : ℝ) / ((4:ℝ)/10)) *
                Real.exp (3 * ((4:ℝ)/10 - 1))
            else
              Real.exp (3 * (((max 0 (min 100 opening) / 100 : ℚ) : ℝ) - 1)) * (kv_s : ℝ))
            (diameter : ℝ)⟩) := rfl

/-- The `binary` arm of the factory, with the string dispatch reduced:
no range check and no clamp. -/
theorem factoryCreateValve_binary (opening kv_s diameter : ℚ) :
    factoryCreateValve "binary" opening kv_s diameter =
      Except.ok ⟨if opening < 50 then "CLOSED" else "OPEN", (kv_s : ℝ),
        zetaFromKvR (kv_s : ℝ) (diameter : ℝ),
        zetaFromKvR (kv_s : ℝ) (diameter : ℝ)⟩ := rfl

/-- C7 (amended): the `linear` and `equal_percentage` laws reject an
opening outside [0,100] before clamping; the `binary` law performs neither
rejection nor clamping — any opening value is accepted and only compared
against the 50-percent threshold. -/
theorem c7_valve_opening_validation (opening kv_s diameter : ℚ)
    (h : opening < 0 ∨ opening > 100) :
    factoryCreateValve "linear" opening kv_s diameter =
      Except.error "La valeur d ouverture doit etre entre 0 et 100" ∧
    factoryCreateValve "equal_percentage" opening kv_s diameter =
      Except.error "La valeur d ouverture doit etre entre 0 et 100" ∧
    factoryCreateValve "binary" opening kv_s diameter =
      Except.ok ⟨if opening < 50 then "CLOSED" else "OPEN", (kv_s : ℝ),
        zetaFromKvR (kv_s : ℝ) (diameter : ℝ), zetaFromKvR (kv_s : ℝ) (diameter : ℝ)⟩ := by
  refine ⟨?_, ?_, factoryCreateValve_binary opening kv_s diameter⟩
  · rw [factoryCreateValve_linear, if_pos h]
  · rw [factoryCreateValve_equal_percentage, if_pos h]

/-- C7 (amended, witness): instantiated at opening 150. -/
theorem c7_valve_opening_validation_witness :
    ((150:ℚ) < 0 ∨ (150:ℚ) > 100) ∧
    factoryCreateValve "linear" 150 1 (1/10) =
      Except.error "La valeur d ouverture doit etre entre 0 et 100" :=
  ⟨by norm_num, (c7_valve_opening_validation 150 1 (1/10) (by norm_num)).1⟩

/-- C8: for an in-range opening, the factory's `equal_percentage` effective
flow coefficient agrees with the specification's two-piece formula at
x = opening/100. -/
theorem c8_equal_percentage_formula (opening kv_s diameter : ℚ)
    (h0 : 0 ≤ opening) (h1 : opening ≤ 100) :
    (factoryCreateValve "equal_percentage" opening kv_s diameter).map CreatedValve.kv_eff
      = Except.ok (specEqualPercentageKv (kv_s : ℝ) ((opening : ℝ) / 100)) := by
  have hno : ¬ (opening < 0 ∨ opening > 100) := by
    push_neg
    exact ⟨h0, h1⟩
  have hclamp : max 0 (min 100 opening) = opening := by
    rw [min_eq_right h1, max_eq_right h0]
  have hcast : ((opening / 100 : ℚ) : ℝ) = (opening : ℝ) / 100 := by
    push_cast
    ring
  have h04 : (0.4 : ℝ) = ((4/10 : ℚ) : ℝ) := by norm_num
  have hcond : (opening / 100 < (4/10 : ℚ)) ↔ ((opening : ℝ) / 100 < (0.4 : ℝ)) := by
    rw [h04, ← hcast]
    exact Rat.cast_lt.symm
  rw [factoryCreateValve_equal_percentage, if_neg hno, hclamp]
  simp only [Except.map]
  unfold specEqualPercentageKv
  by_cases hbr : opening / 100 < (4/10 : ℚ)
  · rw [if_pos hbr, if_pos (hcond.1 hbr)]
    congr 1
    rw [h04]
    push_cast
    ring
  · rw [if_neg hbr, if_neg (fun hc => hbr (hcond.2 hc))]
    congr 1
    push_cast
    ring

/-- C8 (witness): instantiated at opening 50, rated Kv 1, diameter 0.1. -/
theorem c8_equal_percentage_formula_witness :
    (0:ℚ) ≤ 50 ∧ (50:ℚ) ≤ 100 ∧
    (factoryCreateValve "equal_percentage" 50 1 (1/10)).map CreatedValve.kv_eff
      = Except.ok (specEqualPercentageKv ((1:ℚ) : ℝ) (((50:ℚ) : ℝ) / 100)) :=
  ⟨by norm_num, by norm_num,
    c8_equal_percentage_formula 50 1 (1/10) (by norm_num) (by norm_num)⟩

/-- A failing `Port.connect` with well-formed (stripped, non-empty) peer ids
leaves the port unchanged. -/
theorem Port.connect_fail_frozen (p : Port) (a b : String)
    (ha : pyStrip a = a) (hb : pyStrip b = b) {err : String} {q : Port}
    (h : p.connect a b = (some err, q)) : q = p := by
  unfold Port.connect at h
  by_cases h1 : p.is_connected = true
  · rw [if_pos h1] at h
    injection h with _ h'
    exact h'.symm
  rw [if_neg h1] at h
  by_cases h2 : a = ""
  · rw [if_pos h2] at h
    injection h with _ h'
    exact h'.symm
  rw [if_neg h2] at h
  by_cases h3 : b = ""
  · rw [if_pos h3] at h
    injection h with _ h'
    exact h'.symm
  rw [if_neg h3] at h
  by_cases h4 : p.parent_equipment_id = pyStrip a ∧ p.id = pyStrip b
  · rw [if_pos h4] at h
    injection h with _ h'
    exact h'.symm
  rw [if_neg h4] at h
  rw [ha, hb] at h
  rw [if_neg h2, if_neg h3] at h
  injection h with h' _
  cases h'

/-- A successful `Port.connect` marks the port connected, records the
stripped peer ids, and implies the pre-call checks passed. -/
theorem Port.connect_ok_state (p : Port) (a b : String) {q : Port}
    (h : p.connect a b = (none, q)) :
    q = { p with is_connected := true
                 connected_to_equipment := some (pyStrip a)
                 connected_to_port := some (pyStrip b) } ∧
    p.is_connected = false ∧
    ¬ (p.parent_equipment_id = pyStrip a ∧ p.id = pyStrip b) := by
  unfold Port.connect at h
  by_cases h1 : p.is_connected = true
  · rw [if_pos h1] at h
    injection h with h' _
    cases h'
  rw [if_neg h1] at h
  by_cases h2 : a = ""
  · rw [if_pos h2] at h
    injection h with h' _
    cases h'
  rw [if_neg h2] at h
  by_cases h3 : b = ""
  · rw [if_pos h3] at h
    injection h with h' _
    cases h'
  rw [if_neg h3] at h
  by_cases h4 : p.parent_equipment_id = pyStrip a ∧ p.id = pyStrip b
  · rw [if_pos h4] at h
    injection h with h' _
    cases h'
  rw [if_neg h4] at h
  by_cases h5 : pyStrip a = ""
  · rw [if_pos h5] at h
    injection h with h' _
    cases h'
  rw [if_neg h5] at h
  by_cases h6 : pyStrip b = ""
  · rw [if_pos h6] at h
    injection h with h' _
    cases h'
  rw [if_neg h6] at h
  injection h with _ h'
  exact ⟨h'.symm, by simpa using h1, h4⟩

/-- `Port.connect` of a port onto itself always raises. -/
theorem Port.connect_self_ne_none (p : Port) (a b : String)
    (hpa : p.parent_equipment_id = pyStrip a) (hpb : p.id = pyStrip b) :
    (p.connect a b).1 ≠ none := by
  unfold Port.connect
  by_cases h1 : p.is_connected = true
  · rw [if_pos h1]
    simp
  rw [if_neg h1]
  by_cases h2 : a = ""
  · rw [if_pos h2]
    simp
  rw [if_neg h2]
  by_cases h3 : b = ""
  · rw [if_pos h3]
    simp
  rw [if_neg h3]
  rw [if_pos ⟨hpa, hpb⟩]
  simp

/-- `Port.connect` succeeds when the port is free, the peer ids are
well formed, and the peer is not the port itself. -/
theorem Port.connect_none_of (p : Port) (a b : String) (h1 : p.is_connected = false)
    (ha : pyStrip a = a) (hb : pyStrip b = b) (h2 : a ≠ "") (h3 : b ≠ "")
    (h4 : ¬ (p.parent_equipment_id = a ∧ p.id = b)) :
    (p.connect a b).1 = none := by
  unfold Port.connect
  rw [if_neg (by simp [h1]), if_neg h2, if_neg h3, ha, hb, if_neg h4,
    if_neg h2, if_neg h3]

/-- A found port is a member and carries the looked-up id. -/
theorem Equipment.getPort?_mem {e : Equipment} {pid : String} {p : Port}
    (h : e.getPort? pid = some p) : p ∈ e.ports ∧ p.id = pid := by
  unfold Equipment.getPort? at h
  exact ⟨List.mem_of_find?_eq_some h, by simpa using List.find?_some h⟩

/-- A found equipment is a member and carries the looked-up ref. -/
theorem NetworkEquipment.findEquip_mem {net : NetworkEquipment} {r : ℕ} {e : Equipment}
    (h : net.findEquip r = some e) : e ∈ net.equipments ∧ e.ref = r := by
  unfold NetworkEquipment.findEquip at h
  exact ⟨List.mem_of_find?_eq_some h, by simpa using List.find?_some h⟩

/-- Replacing the stored port by itself is the identity (given unique port
ids). -/
theorem Equipment.setPort_self {e : Equipment} {pid : String} {p : Port}
    (hfind : e.getPort? pid = some p)
    (hnd : (e.ports.map Port.id).Nodup) : e.setPort pid p = e := by
  obtain ⟨hm, hpid⟩ := Equipment.getPort?_mem hfind
  unfold Equipment.setPort
  have hall : ∀ q ∈ e.ports, (if q.id == pid then p else q) = q := by
    intro q hq
    by_cases hqid : q.id == pid
    · rw [if_pos hqid]
      exact (List.inj_on_of_nodup_map hnd hq hm (by
        rw [hpid]
        exact eq_of_beq hqid)).symm
    · rw [if_neg hqid]
  rw [List.map_congr_left hall]
  simp

/-- `findEquip` after a `setPort` on possibly another equipment. -/
theorem NetworkEquipment.findEquip_setPort (net : NetworkEquipment) (r : ℕ)
    (pid : String) (p' : Port) (r' : ℕ) :
    (net.setPort r pid p').findEquip r' =
      (net.findEquip r').map (fun e => if e.ref == r then e.setPort pid p' else e) := by
  unfold NetworkEquipment.findEquip NetworkEquipment.setPort
  rw [List.find?_map]
  have hpred : ((fun e : Equipment => e.ref == r') ∘
      (fun e => if e.ref == r then e.setPort pid p' else e)) =
      (fun e : Equipment => e.ref == r') := by
    funext x
    by_cases hx : (x.ref == r) = true
    · simp only [Function.comp_apply, if_pos hx]
      rfl
    · simp only [Function.comp_apply, if_neg hx]
  rw [hpred]

/-- `getPort?` after a `setPort` whose new port keeps the stored id. -/
theorem Equipment.getPort?_setPort (e : Equipment) (pid pid' : String) (p' : Port)
    (hid : p'.id = pid) :
    (e.setPort pid p').getPort? pid' =
      (e.getPort? pid').map (fun p => if p.id == pid then p' else p) := by
  unfold Equipment.getPort? Equipment.setPort
  rw [List.find?_map]
  have hpred : ((fun p : Port => p.id == pid') ∘
      (fun p => if p.id == pid then p' else p)) = (fun p : Port => p.id == pid') := by
    funext q
    by_cases hq : (q.id == pid) = true
    · have hq' : q.id = pid := eq_of_beq hq
      simp only [Function.comp_apply, if_pos hq]
      rw [hid, hq']
    · simp only [Function.comp_apply, if_neg hq]
  rw [hpred]

/-- Reading a different port id is unaffected by `setPort`. -/
theorem Equipment.getPort?_setPort_ne (e : Equipment) (pid pid' : String) (p' : Port)
    (hid : p'.id = pid) (hne : pid' ≠ pid) :
    (e.setPort pid p').getPort? pid' = e.getPort? pid' := by
  rw [Equipment.getPort?_setPort e pid pid' p' hid]
  cases hgp : e.getPort? pid' with
  | none => rfl
  | some q =>
    obtain ⟨-, hq⟩ := Equipment.getPort?_mem hgp
    have : ¬ (q.id == pid) = true := by
      simp [hq]
      exact hne
    simp [Option.map, this]

/-- Reading the written port id yields the new port. -/
theorem Equipment.getPort?_setPort_eq (e : Equipment) (pid : String) (p' : Port)
    (hid : p'.id = pid) {q : Port} (hgp : e.getPort? pid = some q) :
    (e.setPort pid p').getPort? pid = some p' := by
  rw [Equipment.getPort?_setPort e pid pid p' hid, hgp]
  obtain ⟨-, hq⟩ := Equipment.getPort?_mem hgp
  simp [Option.map, hq]

/-- Writing back the stored port is the identity on the network. -/
theorem NetworkEquipment.setPort_self_net {net : NetworkEquipment} {r : ℕ} {pid : String}
    {p : Port} (hwf : NetWF net)
    (hfind : (net.findEquip r).bind (fun e => e.getPort? pid) = some p) :
    net.setPort r pid p = net := by
  obtain ⟨e, hfe, hgp⟩ : ∃ e, net.findEquip r = some e ∧ e.getPort? pid = some p := by
    cases hfe : net.findEquip r with
    | none =>
      rw [hfe] at hfind
      cases hfind
    | some e =>
      rw [hfe] at hfind
      exact ⟨e, rfl, hfind⟩
  obtain ⟨hmem, href⟩ := NetworkEquipment.findEquip_mem hfe
  unfold NetworkEquipment.setPort
  have hall : ∀ x ∈ net.equipments, (if x.ref == r then x.setPort pid p else x) = x := by
    intro x hx
    by_cases hxr : x.ref == r
    · rw [if_pos hxr]
      have hx_eq : x = e :=
        List.inj_on_of_nodup_map hwf.1 hx hmem (by rw [href]; exact eq_of_beq hxr)
      rw [hx_eq]
      exact Equipment.setPort_self hgp ((hwf.2 e hmem).2.2.1)
    · rw [if_neg hxr]
  rw [List.map_congr_left hall]
  simp

/-- `Port.connect` never changes the port's own ids. -/
theorem Port.connect_snd_id (p : Port) (a b : String) :
    (p.connect a b).2.id = p.id ∧
      (p.connect a b).2.parent_equipment_id = p.parent_equipment_id := by
  unfold Port.connect
  split_ifs <;> exact ⟨rfl, rfl⟩

/-- Projection form of `Port.connect_fail_frozen`. -/
theorem Port.connect_fst_some_frozen (p : Port) (a b : String)
    (ha : pyStrip a = a) (hb : pyStrip b = b) {err : String}
    (h : (p.connect a b).1 = some err) : (p.connect a b).2 = p :=
  Port.connect_fail_frozen p a b ha hb (by rw [← h])

/-- Projection form of `Port.connect_ok_state`. -/
theorem Port.connect_fst_none_state (p : Port) (a b : String)
    (h : (p.connect a b).1 = none) :
    (p.connect a b).2 = { p with is_connected := true
                                 connected_to_equipment := some (pyStrip a)
                                 connected_to_port := some (pyStrip b) } ∧
    p.is_connected = false ∧
    ¬ (p.parent_equipment_id = pyStrip a ∧ p.id = pyStrip b) :=
  Port.connect_ok_state p a b (by rw [← h])

/-- `setPort` keeps the equipment's identity tag. -/
theorem Equipment.setPort_ref (e : Equipment) (pid : String) (p : Port) :
    (e.setPort pid p).ref = e.ref := rfl

/-- The full case analysis of `connectEquipments` on a well-formed network:
either the call raises and the state is exactly the initial one, или it
succeeds, the two ports existed, were free and were distinct, and the final
state is the two port writes plus the two registry writes. -/
theorem connectEquipments_spec (net : NetworkEquipment) (hwf : NetWF net)
    (r1 r2 : ℕ) (pid1 pid2 : String) :
    ((net.connectEquipments r1 pid1 r2 pid2).2 = net ∧
      ∃ err, (net.connectEquipments r1 pid1 r2 pid2).1 = some err) ∨
    (∃ eq1 eq2 port1 port2,
      net.findEquip r1 = some eq1 ∧ net.findEquip r2 = some eq2 ∧
      eq1.getPort? pid1 = some port1 ∧ eq2.getPort? pid2 = some port2 ∧
      ¬ (eq1.id = eq2.id ∧ pid1 = pid2) ∧
      port1.is_connected = false ∧ port2.is_connected = false ∧
      (port1.connect eq2.id port2.id).2.is_connected = true ∧
      net.connectEquipments r1 pid1 r2 pid2 =
        (none,
          { (net.setPort r1 pid1 (port1.connect eq2.id port2.id).2).setPort r2 pid2
              (port2.connect eq1.id port1.id).2 with
            connections :=
              dictInsert (dictInsert net.connections pid1 (pid1 ++ "_to_" ++ pid2))
                pid2 (pid1 ++ "_to_" ++ pid2) })) := by
  cases hfe1 : net.findEquip r1 with
  | none =>
    left
    have hval : net.connectEquipments r1 pid1 r2 pid2 =
        (some "L equipement 1 n existe pas dans le reseau", net) := by
      unfold NetworkEquipment.connectEquipments
      simp only [hfe1]
    rw [hval]
    exact ⟨rfl, _, rfl⟩
  | some eq1 =>
  cases hfe2 : net.findEquip r2 with
  | none =>
    left
    have hval : net.connectEquipments r1 pid1 r2 pid2 =
        (some "L equipement 2 n existe pas dans le reseau", net) := by
      unfold NetworkEquipment.connectEquipments
      simp only [hfe1, hfe2]
    rw [hval]
    exact ⟨rfl, _, rfl⟩
  | some eq2 =>
  cases hgp1 : eq1.getPort? pid1 with
  | none =>
    left
    have hval : net.connectEquipments r1 pid1 r2 pid2 =
        (some "Le port 1 n existe pas dans l equipement 1", net) := by
      unfold NetworkEquipment.connectEquipments
      simp only [hfe1, hfe2, hgp1]
    rw [hval]
    exact ⟨rfl, _, rfl⟩
  | some port1 =>
  cases hgp2 : eq2.getPort? pid2 with
  | none =>
    left
    have hval : net.connectEquipments r1 pid1 r2 pid2 =
        (some "Le port 2 n existe pas dans l equipement 2", net) := by
      unfold NetworkEquipment.connectEquipments
      simp only [hfe1, hfe2, hgp1, hgp2]
    rw [hval]
    exact ⟨rfl, _, rfl⟩
  | some port2 =>
  by_cases hc1 : port1.is_connected = true
  · left
    have hval : net.connectEquipments r1 pid1 r2 pid2 =
        (some "Le port 1 est deja connecte", net) := by
      unfold NetworkEquipment.connectEquipments
      simp only [hfe1, hfe2, hgp1, hgp2]
      rw [if_pos hc1]
    rw [hval]
    exact ⟨rfl, _, rfl⟩
  by_cases hc2 : port2.is_connected = true
  · left
    have hval : net.connectEquipments r1 pid1 r2 pid2 =
        (some "Le port 2 est deja connecte", net) := by
      unfold NetworkEquipment.connectEquipments
      simp only [hfe1, hfe2, hgp1, hgp2]
      rw [if_neg hc1, if_pos hc2]
    rw [hval]
    exact ⟨rfl, _, rfl⟩
  obtain ⟨hm1, hr1⟩ := NetworkEquipment.findEquip_mem hfe1
  obtain ⟨hm2, hr2⟩ := NetworkEquipment.findEquip_mem hfe2
  obtain ⟨h1ne, h1strip, h1nd, h1pw⟩ := hwf.2 eq1 hm1
  obtain ⟨h2ne, h2strip, h2nd, h2pw⟩ := hwf.2 eq2 hm2
  obtain ⟨hp1mem, hp1id⟩ := Equipment.getPort?_mem hgp1
  obtain ⟨hp2mem, hp2id⟩ := Equipment.getPort?_mem hgp2
  obtain ⟨hp1ne, hp1strip, hp1par⟩ := h1pw port1 hp1mem
  obtain ⟨hp2ne, hp2strip, hp2par⟩ := h2pw port2 hp2mem
  cases hres1 : (port1.connect eq2.id port2.id).1 with
  | some e1 =>
    left
    have hval : net.connectEquipments r1 pid1 r2 pid2 =
        (some e1, net.setPort r1 pid1 (port1.connect eq2.id port2.id).2) := by
      unfold NetworkEquipment.connectEquipments
      simp only [hfe1, hfe2, hgp1, hgp2]
      rw [if_neg hc1, if_neg hc2]
      simp only [hres1]
    rw [hval]
    refine ⟨?_, e1, rfl⟩
    show net.setPort r1 pid1 (port1.connect eq2.id port2.id).2 = net
    rw [Port.connect_fst_some_frozen port1 eq2.id port2.id h2strip hp2strip hres1]
    refine NetworkEquipment.setPort_self_net hwf ?_
    rw [hfe1]
    exact hgp1
  | none =>
    right
    obtain ⟨hstate1, hfree1, hnself1⟩ :=
      Port.connect_fst_none_state port1 eq2.id port2.id hres1
    have hnotsame : ¬ (eq1.id = eq2.id ∧ pid1 = pid2) := by
      rintro ⟨hida, hidb⟩
      apply hnself1
      constructor
      · rw [h2strip, ← hida]
        exact hp1par
      · rw [hp2strip, hp2id, hp1id]
        exact hidb
    have hconn1 : (port1.connect eq2.id port2.id).2.is_connected = true := by
      rw [hstate1]
    have hid1' : (port1.connect eq2.id port2.id).2.id = pid1 := by
      rw [(Port.connect_snd_id port1 eq2.id port2.id).1, hp1id]
    have hbind : ((net.setPort r1 pid1
        (port1.connect eq2.id port2.id).2).findEquip r2).bind
          (fun e => e.getPort? pid2) = some port2 := by
      rw [NetworkEquipment.findEquip_setPort, hfe2, Option.map_some', Option.some_bind]
      by_cases hrr : (eq2.ref == r1) = true
      · have hr12 : r2 = r1 := by
          rw [← hr2]
          exact eq_of_beq hrr
        have he12 : eq1 = eq2 := by
          rw [hr12] at hfe2
          rw [hfe1] at hfe2
          exact Option.some.inj hfe2
        have hpidne : pid2 ≠ pid1 := by
          intro hpe
          exact hnotsame ⟨by rw [he12], hpe.symm⟩
        rw [if_pos hrr]
        rw [Equipment.getPort?_setPort_ne eq2 pid1 pid2
          (port1.connect eq2.id port2.id).2 hid1' hpidne]
        exact hgp2
      · rw [if_neg hrr]
        exact hgp2
    have hres2none : (port2.connect eq1.id port1.id).1 = none := by
      refine Port.connect_none_of port2 eq1.id port1.id (by simpa using hc2)
        h1strip hp1strip h1ne hp1ne ?_
      rintro ⟨hqa, hqb⟩
      apply hnotsame
      constructor
      · rw [← hqa]
        exact hp2par
      · rw [← hp1id, ← hp2id]
        exact hqb.symm
    refine ⟨eq1, eq2, port1, port2, rfl, rfl, hgp1, hgp2, hnotsame,
      by simpa using hc1, by simpa using hc2, hconn1, ?_⟩
    unfold NetworkEquipment.connectEquipments
    simp only [hfe1, hfe2, hgp1, hgp2]
    rw [if_neg hc1, if_neg hc2]
    simp only [hres1, hbind, hres2none]
    rfl

/-- Every raising `connectEquipments` call leaves the network (both ports'
state and the connection registry) exactly as it was. -/
theorem connectEquipments_error_frozen (net : NetworkEquipment) (hwf : NetWF net)
    {r1 r2 : ℕ} {pid1 pid2 : String} {err : String} {net' : NetworkEquipment}
    (h : net.connectEquipments r1 pid1 r2 pid2 = (some err, net')) : net' = net := by
  rcases connectEquipments_spec net hwf r1 r2 pid1 pid2 with ⟨h2, -⟩ |
    ⟨_, _, _, _, -, -, -, -, -, -, -, -, hval⟩
  · rw [h] at h2
    exact h2
  · rw [hval] at h
    injection h with h1 _
    cases h1

/-- After a successful `connectEquipments`, the first port is stored
connected. -/
theorem connect_success_stored (net : NetworkEquipment) (hwf : NetWF net)
    {r1 r2 : ℕ} {pid1 pid2 : String} {net1 : NetworkEquipment}
    (h : net.connectEquipments r1 pid1 r2 pid2 = (none, net1)) :
    ∃ q, (net1.findEquip r1).bind (fun e => e.getPort? pid1) = some q ∧
      q.is_connected = true := by
  rcases connectEquipments_spec net hwf r1 r2 pid1 pid2 with ⟨-, err, h1⟩ |
    ⟨eq1, eq2, port1, port2, hfe1, hfe2, hgp1, hgp2, hnot, -, -, hconn1, hval⟩
  · rw [h] at h1
    cases h1
  · rw [hval] at h
    injection h with _ h2
    subst h2
    obtain ⟨hm1, hr1⟩ := NetworkEquipment.findEquip_mem hfe1
    obtain ⟨hm2, hr2⟩ := NetworkEquipment.findEquip_mem hfe2
    have hp1id : port1.id = pid1 := (Equipment.getPort?_mem hgp1).2
    have hp2id : port2.id = pid2 := (Equipment.getPort?_mem hgp2).2
    have hid1' : (port1.connect eq2.id port2.id).2.id = pid1 := by
      rw [(Port.connect_snd_id port1 eq2.id port2.id).1, hp1id]
    have hid2' : (port2.connect eq1.id port1.id).2.id = pid2 := by
      rw [(Port.connect_snd_id port2 eq1.id port1.id).1, hp2id]
    refine ⟨(port1.connect eq2.id port2.id).2, ?_, hconn1⟩
    show (((net.setPort r1 pid1 (port1.connect eq2.id port2.id).2).setPort r2 pid2
        (port2.connect eq1.id port1.id).2).findEquip r1).bind
          (fun e => e.getPort? pid1) = some (port1.connect eq2.id port2.id).2
    rw [NetworkEquipment.findEquip_setPort, NetworkEquipment.findEquip_setPort, hfe1]
    simp only [Option.map_some', Option.some_bind]
    have hbeq1 : (eq1.ref == r1) = true := by
      rw [hr1]
      exact beq_self_eq_true r1
    rw [if_pos hbeq1, Equipment.setPort_ref]
    by_cases hrr : (eq1.ref == r2) = true
    · have hr12 : r1 = r2 := by
        rw [← hr1]
        exact eq_of_beq hrr
      have he12 : eq1 = eq2 := by
        rw [← hr12] at hfe2
        rw [hfe1] at hfe2
        exact Option.some.inj hfe2
      have hpidne : pid1 ≠ pid2 := fun hp => hnot ⟨by rw [he12], hp⟩
      rw [if_pos hrr]
      rw [Equipment.getPort?_setPort_ne _ pid2 pid1 _ hid2' hpidne]
      exact Equipment.getPort?_setPort_eq eq1 pid1 _ hid1' hgp1
    · rw [if_neg hrr]
      exact Equipment.getPort?_setPort_eq eq1 pid1 _ hid1' hgp1

/-- Connecting a port to itself always raises. -/
theorem connect_self_port_fails (net : NetworkEquipment) (hwf : NetWF net)
    (r : ℕ) (pid : String) :
    (net.connectEquipments r pid r pid).1 ≠ none := by
  rcases connectEquipments_spec net hwf r r pid pid with ⟨-, err, h1⟩ |
    ⟨eq1, eq2, port1, port2, hfe1, hfe2, hgp1, hgp2, hnot, -, -, -, -⟩
  · rw [h1]
    simp
  · refine absurd ⟨?_, rfl⟩ hnot
    rw [hfe1] at hfe2
    rw [Option.some.inj hfe2]

/-- A `connectEquipments` call whose first port is already connected always
raises (no well-formedness needed). -/
theorem connect_busy_fails (net : NetworkEquipment) {r1 r2 : ℕ} {pid1 pid2 : String}
    {q : Port}
    (hq : (net.findEquip r1).bind (fun e => e.getPort? pid1) = some q)
    (hqc : q.is_connected = true) :
    (net.connectEquipments r1 pid1 r2 pid2).1 ≠ none := by
  unfold NetworkEquipment.connectEquipments
  cases hfe1 : net.findEquip r1 with
  | none =>
    rw [hfe1] at hq
    cases hq
  | some eq1 =>
    rw [hfe1, Option.some_bind] at hq
    cases hfe2 : net.findEquip r2 with
    | none => simp [hfe1, hfe2]
    | some eq2 =>
      cases hgp2 : eq2.getPort? pid2 with
      | none => simp [hfe1, hfe2, hq, hgp2]
      | some port2 => simp [hfe1, hfe2, hq, hgp2, hqc]

/-- C2: on a well-formed equipment network, connecting a port to itself
always fails; re-connecting the same two ports after a successful
connection always fails; and every failing `connectEquipments` call
returns the network (both ports and the connection registry) exactly as it
was. -/
theorem c2_connect_rejects_and_is_atomic (net : NetworkEquipment) (hwf : NetWF net)
    (r1 r2 : ℕ) (pid1 pid2 : String) :
    (net.connectEquipments r1 pid1 r1 pid1).1 ≠ none ∧
    (∀ net1, net.connectEquipments r1 pid1 r2 pid2 = (none, net1) →
      (net1.connectEquipments r1 pid1 r2 pid2).1 ≠ none) ∧
    (∀ err net', net.connectEquipments r1 pid1 r2 pid2 = (some err, net') →
      net' = net) := by
  refine ⟨connect_self_port_fails net hwf r1 pid1, ?_, ?_⟩
  · intro net1 hsucc
    obtain ⟨q, hq, hqc⟩ := connect_success_stored net hwf hsucc
    exact connect_busy_fails net1 hq hqc
  · intro err net' h
    exact connectEquipments_error_frozen net hwf h

/-- C2 (witness): instantiated on the concrete two-equipment network, for
the self-connection of port `A_P1`. -/
theorem c2_connect_rejects_and_is_atomic_witness :
    NetWF c2Net ∧ (c2Net.connectEquipments 0 "A_P1" 0 "A_P1").1 ≠ none :=
  ⟨by decide,
    (c2_connect_rejects_and_is_atomic c2Net (by decide) 0 0 "A_P1" "A_P1").1⟩
